import Mathlib

/-!
Shallow embedding of the PulseKit Rust SDK (`src/sdks/rust/src/lib.rs`).

The client is modelled as explicit state (`PulseKit` = config + queue).
Effects that the Rust code performs against the outside world are made
explicit:
  * the wall clock is a `now : String` parameter (the RFC3339 rendering of
    `Utc::now()` at the moment `capture` runs);
  * the raw backtrace is a parameter (a list of frames, each with a list of
    resolved symbols, mirroring the `backtrace` crate's data);
  * each HTTP request issued is recorded as an `HttpCall` in the operation's
    result, together with the batch of events that was handed to the
    transport;
  * the network outcome of a send (`Ok(resp)` with a status, or `Err(e)`) is
    a `SendOutcome` parameter, and the debug log lines the Rust code prints
    are recorded in the result so the outcome is actually consumed.

JSON values are modelled by a small inductive `Json`; serde serialization of
`Event` (with its `rename` and `skip_serializing_if` attributes) is the
function `eventFields` / `Event.toJson`.
-/

/-- Model of `serde_json::Value`.  Objects keep their fields as an ordered
association list, which also models serde's declaration-order struct
serialization. -/
inductive Json where
  | null : Json
  | bool : Bool → Json
  | num : Int → Json
  | str : String → Json
  | arr : List Json → Json
  | obj : List (String × Json) → Json
deriving Repr

/-- `Level` from lib.rs lines 42-51: event severity, serialized lowercase. -/
inductive Level where
  | debug
  | info
  | warning
  | error
  | fatal
deriving Repr, DecidableEq

/-- `#[serde(rename_all = "lowercase")]` on `Level`. -/
def Level.toJson : Level → Json
  | .debug => .str "debug"
  | .info => .str "info"
  | .warning => .str "warning"
  | .error => .str "error"
  | .fatal => .str "fatal"

/-- `StackFrame` from lib.rs lines 54-62. -/
structure StackFrame where
  file : Option String
  line : Option Nat
  function : Option String
deriving Repr, DecidableEq

/-- `Event` from lib.rs lines 65-106.  `HashMap`s are modelled as
association lists; `serde_json::Value` as `Json`. -/
structure Event where
  event_type : String
  level : Option Level
  message : Option String
  metadata : Option (List (String × Json))
  stacktrace : Option (List StackFrame)
  tags : Option (List (String × String))
  timestamp : Option String
  fingerprint : Option String
  environment : Option String
  release : Option String
deriving Repr

/-- `#[derive(Default)]` on `Event`: empty `event_type`, every optional
field absent. -/
def Event.default : Event :=
  { event_type := ""
    level := none
    message := none
    metadata := none
    stacktrace := none
    tags := none
    timestamp := none
    fingerprint := none
    environment := none
    release := none }

/-- One field of the serialized form: `skip_serializing_if = "Option::is_none"`
emits nothing when the option is absent. -/
def optField (k : String) (v : Option Json) : List (String × Json) :=
  match v with
  | none => []
  | some j => [(k, j)]

/-- Serde serialization of a `StackFrame`: every field optional, omitted
when absent. -/
def StackFrame.toJson (f : StackFrame) : Json :=
  .obj (optField "file" (f.file.map Json.str)
    ++ optField "line" (f.line.map (fun n => Json.num (Int.ofNat n)))
    ++ optField "function" (f.function.map Json.str))

/-- Serde serialization of an `Event` as an ordered field list:
declaration order, `event_type` renamed to `type`, each optional field
omitted entirely when absent. -/
def eventFields (e : Event) : List (String × Json) :=
  [("type", Json.str e.event_type)]
  ++ optField "level" (e.level.map Level.toJson)
  ++ optField "message" (e.message.map Json.str)
  ++ optField "metadata" (e.metadata.map (fun m => Json.obj m))
  ++ optField "stacktrace" (e.stacktrace.map (fun st => Json.arr (st.map StackFrame.toJson)))
  ++ optField "tags" (e.tags.map (fun ts => Json.obj (ts.map (fun p => (p.1, Json.str p.2)))))
  ++ optField "timestamp" (e.timestamp.map Json.str)
  ++ optField "fingerprint" (e.fingerprint.map Json.str)
  ++ optField "environment" (e.environment.map Json.str)
  ++ optField "release" (e.release.map Json.str)

/-- `serde_json::to_value` of an `Event`. -/
def Event.toJson (e : Event) : Json :=
  .obj (eventFields e)

/-- `Config` from lib.rs lines 110-123. -/
structure Config where
  endpoint : String
  api_key : String
  environment : Option String
  release : Option String
  batch_size : Nat
  debug : Bool
deriving Repr

/-- `impl Default for Config`, lib.rs lines 125-136. -/
def Config.default : Config :=
  { endpoint := ""
    api_key := ""
    environment := some "production"
    release := none
    batch_size := 10
    debug := false }

/-- The `PulseKit` client state: the config and the queue guarded by the
mutex.  The `reqwest::Client` handle carries no observable state and is not
modelled. -/
structure PulseKit where
  config : Config
  queue : List Event
deriving Repr

/-- `PulseKit::new`, lib.rs lines 147-153: stores the config unchanged and
starts with an empty queue.  No validation is performed. -/
def PulseKit.new (config : Config) : PulseKit :=
  { config := config, queue := [] }

/-- Outcome of the HTTP exchange as seen at the `match` in the send
routines: `Ok(resp)` carrying a status code, or `Err(e)` carrying the
error's rendering. -/
inductive SendOutcome where
  | ok : Nat → SendOutcome
  | err : String → SendOutcome
deriving Repr, DecidableEq

/-- One HTTP request issued by the transport.  `events` records the batch
that was handed to the send routine. -/
structure HttpCall where
  url : String
  headers : List (String × String)
  body : Json
  events : List Event
deriving Repr

/-- Result of one public operation: the new client state, the HTTP calls it
made (in order), and the debug log lines it printed. -/
structure OpResult where
  state : PulseKit
  calls : List HttpCall
  logs : List String
deriving Repr

/-- `PulseKit::prepare_request`, lib.rs lines 319-329. -/
def prepare_request (config : Config) (events : List Event) : String × Json :=
  if events.length == 1 then
    (config.endpoint ++ "/api/v1/events", (events.headD Event.default).toJson)
  else
    (config.endpoint ++ "/api/v1/events/batch",
      Json.obj [("events", Json.arr (events.map Event.toJson))])

/-- `PulseKit::send_events_sync`, lib.rs lines 291-317: shapes the request,
issues exactly one POST with the JSON content type and the API-key header,
and on either outcome only prints a debug line; nothing is retried and no
error escapes. -/
def send_events_sync (config : Config) (events : List Event)
    (outcome : SendOutcome) : List HttpCall × List String :=
  let r := prepare_request config events
  let call : HttpCall :=
    { url := r.1
      headers := [("Content-Type", "application/json"),
                  ("X-PulseKit-Key", config.api_key)]
      body := r.2
      events := events }
  let logs :=
    match outcome with
    | .ok status =>
        if config.debug then
          ["[PulseKit] Sent " ++ toString events.length
            ++ " event(s), status: " ++ toString status]
        else []
    | .err e =>
        if config.debug then ["[PulseKit] Failed to send events: " ++ e]
        else []
  ([call], logs)

/-- `PulseKit::send_events_async`, lib.rs lines 261-289: identical request
shaping, headers and logging; it differs from the sync path only in how the
calling task suspends, which has no observable effect in this model. -/
def send_events_async (config : Config) (events : List Event)
    (outcome : SendOutcome) : List HttpCall × List String :=
  let r := prepare_request config events
  let call : HttpCall :=
    { url := r.1
      headers := [("Content-Type", "application/json"),
                  ("X-PulseKit-Key", config.api_key)]
      body := r.2
      events := events }
  let logs :=
    match outcome with
    | .ok status =>
        if config.debug then
          ["[PulseKit] Sent " ++ toString events.length
            ++ " event(s), status: " ++ toString status]
        else []
    | .err e =>
        if config.debug then ["[PulseKit] Failed to send events: " ++ e]
        else []
  ([call], logs)

/-- The enrichment step of `PulseKit::capture`, lib.rs lines 184-191:
timestamp unconditionally overwritten with now, environment and release
filled from the config only when absent, level defaulted to Info only when
absent. -/
def enrich (config : Config) (now : String) (event : Event) : Event :=
  let event := { event with timestamp := some now }
  let event := { event with environment := event.environment.or config.environment }
  let event := { event with release := event.release.or config.release }
  if event.level.isNone then { event with level := some Level.info } else event

/-- `PulseKit::capture`, lib.rs lines 183-205: enrich, push, log when debug,
then if the post-push length reaches `batch_size` drain the whole queue and
send it synchronously. -/
def PulseKit.capture (pk : PulseKit) (now : String) (event : Event)
    (outcome : SendOutcome) : OpResult :=
  let event := enrich pk.config now event
  let queue := pk.queue ++ [event]
  let logs :=
    if pk.config.debug then
      ["[PulseKit] Event queued, queue size: " ++ toString queue.length]
    else []
  if queue.length ≥ pk.config.batch_size then
    let events := queue
    let sent := send_events_sync pk.config events outcome
    { state := { pk with queue := [] }, calls := sent.1, logs := logs ++ sent.2 }
  else
    { state := { pk with queue := queue }, calls := [], logs := logs }

/-- A raw symbol of one backtrace frame, as the `backtrace` crate exposes
it: optional filename, line number and demangled name (already rendered to
strings). -/
structure BacktraceSymbol where
  filename : Option String
  lineno : Option Nat
  name : Option String
deriving Repr, DecidableEq

/-- A raw backtrace frame: the symbols resolved for it (possibly several,
e.g. for inlined calls). -/
structure BacktraceFrame where
  symbols : List BacktraceSymbol
deriving Repr, DecidableEq

/-- `capture_backtrace`, lib.rs lines 332-347: skip the first 3 raw frames,
then push one `StackFrame` per symbol of each remaining frame, in order.
The nested `for` loops are modelled as nested folds over the frame list. -/
def capture_backtrace (backtrace : List BacktraceFrame) : List StackFrame :=
  (backtrace.drop 3).foldl
    (fun frames frame =>
      frame.symbols.foldl
        (fun frames symbol =>
          frames ++ [{ file := symbol.filename
                       line := symbol.lineno
                       function := symbol.name }])
        frames)
    []

/-- `PulseKit::capture_error_with_options`, lib.rs lines 161-180.  The raw
backtrace captured at the call is a parameter. -/
def PulseKit.capture_error_with_options (pk : PulseKit) (now : String)
    (backtrace : List BacktraceFrame) (message : String)
    (tags : Option (List (String × String)))
    (metadata : Option (List (String × Json)))
    (outcome : SendOutcome) : OpResult :=
  let stacktrace := capture_backtrace backtrace
  let event : Event :=
    { Event.default with
        event_type := "error"
        level := some Level.error
        message := some message
        stacktrace := some stacktrace
        tags := tags
        metadata := metadata }
  pk.capture now event outcome

/-- `PulseKit::capture_error`, lib.rs lines 156-158. -/
def PulseKit.capture_error (pk : PulseKit) (now : String)
    (backtrace : List BacktraceFrame) (message : String)
    (outcome : SendOutcome) : OpResult :=
  pk.capture_error_with_options now backtrace message none none outcome

/-- `PulseKit::capture_message_with_options`, lib.rs lines 213-230. -/
def PulseKit.capture_message_with_options (pk : PulseKit) (now : String)
    (message : String) (level : Level)
    (tags : Option (List (String × String)))
    (metadata : Option (List (String × Json)))
    (outcome : SendOutcome) : OpResult :=
  let event : Event :=
    { Event.default with
        event_type := "message"
        level := some level
        message := some message
        tags := tags
        metadata := metadata }
  pk.capture now event outcome

/-- `PulseKit::capture_message`, lib.rs lines 208-210. -/
def PulseKit.capture_message (pk : PulseKit) (now : String)
    (message : String) (level : Level) (outcome : SendOutcome) : OpResult :=
  pk.capture_message_with_options now message level none none outcome

/-- `PulseKit::flush` (async), lib.rs lines 234-245: drain everything, and
only when the drained list is non-empty hand it to the async send path. -/
def PulseKit.flush (pk : PulseKit) (outcome : SendOutcome) : OpResult :=
  let events := pk.queue
  let pk := { pk with queue := [] }
  if events.isEmpty then
    { state := pk, calls := [], logs := [] }
  else
    let sent := send_events_async pk.config events outcome
    { state := pk, calls := sent.1, logs := sent.2 }

/-- `PulseKit::flush_blocking`, lib.rs lines 248-259: same drain, sync send
path. -/
def PulseKit.flush_blocking (pk : PulseKit) (outcome : SendOutcome) : OpResult :=
  let events := pk.queue
  let pk := { pk with queue := [] }
  if events.isEmpty then
    { state := pk, calls := [], logs := [] }
  else
    let sent := send_events_sync pk.config events outcome
    { state := pk, calls := sent.1, logs := sent.2 }

/-- `impl Drop for PulseKit`, lib.rs lines 349-353: teardown runs
`flush_blocking`. -/
def PulseKit.teardown (pk : PulseKit) (outcome : SendOutcome) : OpResult :=
  pk.flush_blocking outcome

/-! ## Helper lemmas -/

/-- The pattern `for s in l do out.push (g s)` as a fold equals appending the
mapped list. -/
theorem foldl_push_eq_map {α β : Type} (g : α → β) (l : List α) (acc : List β) :
    l.foldl (fun fs s => fs ++ [g s]) acc = acc ++ l.map g := by
  induction l generalizing acc with
  | nil => simp
  | cons x xs ih => simp [ih]

/-- The nested frame/symbol loop of `capture_backtrace` as one flatMap. -/
theorem foldl_frames_eq (g : BacktraceSymbol → StackFrame) (l : List BacktraceFrame)
    (acc : List StackFrame) :
    l.foldl (fun frames frame =>
        frame.symbols.foldl (fun fs s => fs ++ [g s]) frames) acc
      = acc ++ l.flatMap (fun f => f.symbols.map g) := by
  induction l generalizing acc with
  | nil => simp
  | cons f fs ih =>
      simp only [List.foldl_cons, List.flatMap_cons]
      rw [foldl_push_eq_map, ih, List.append_assoc]

/-- `capture_backtrace` drops exactly the first 3 raw frames and maps each
remaining symbol to a `StackFrame`, in order. -/
theorem capture_backtrace_eq (bt : List BacktraceFrame) :
    capture_backtrace bt
      = (bt.drop 3).flatMap (fun f => f.symbols.map (fun s =>
          { file := s.filename, line := s.lineno, function := s.name })) := by
  unfold capture_backtrace
  simpa using foldl_frames_eq _ (bt.drop 3) []

/-- Membership in one optional serialized field. -/
theorem mem_optField_iff (p : String × Json) (k : String) (v : Option Json) :
    p ∈ optField k v ↔ ∃ j, v = some j ∧ p = (k, j) := by
  cases v <;> simp [optField]

/-! ## Claims -/

/-- C1: for a sequential client, a capture that leaves the post-push queue
length below `batch_size` issues no HTTP call and only appends the enriched
event, while the capture whose post-push length reaches `batch_size`
issues exactly one send whose batch is every queued event in push order and
leaves the queue empty. -/
theorem capture_threshold_send (pk : PulseKit) (now : String) (event : Event)
    (outcome : SendOutcome) :
    (pk.queue.length < pk.config.batch_size - 1 →
      (pk.capture now event outcome).calls = [] ∧
      (pk.capture now event outcome).state.queue
        = pk.queue ++ [enrich pk.config now event]) ∧
    (pk.config.batch_size ≤ pk.queue.length + 1 →
      (pk.capture now event outcome).calls.map HttpCall.events
        = [pk.queue ++ [enrich pk.config now event]] ∧
      (pk.capture now event outcome).state.queue = []) := by
  constructor
  · intro h
    have hlt : ¬ (pk.config.batch_size ≤ pk.queue.length + 1) := by omega
    simp [PulseKit.capture, hlt]
  · intro h
    simp [PulseKit.capture, h, send_events_sync]

/-- Witness for C1: a fresh default client (batch_size 10) captures without
sending; a fresh client with batch_size 1 sends its whole queue on the first
capture and ends empty. -/
theorem capture_threshold_send_witness :
    (PulseKit.new Config.default).queue.length
        < (PulseKit.new Config.default).config.batch_size - 1 ∧
    ((PulseKit.new Config.default).capture "t" Event.default (SendOutcome.ok 200)).calls = [] ∧
    ((PulseKit.new Config.default).capture "t" Event.default (SendOutcome.ok 200)).state.queue
        = (PulseKit.new Config.default).queue
          ++ [enrich (PulseKit.new Config.default).config "t" Event.default] ∧
    (PulseKit.new { Config.default with batch_size := 1 }).config.batch_size
        ≤ (PulseKit.new { Config.default with batch_size := 1 }).queue.length + 1 ∧
    ((PulseKit.new { Config.default with batch_size := 1 }).capture "t" Event.default
        (SendOutcome.ok 200)).calls.map HttpCall.events
      = [(PulseKit.new { Config.default with batch_size := 1 }).queue
          ++ [enrich (PulseKit.new { Config.default with batch_size := 1 }).config "t" Event.default]] ∧
    ((PulseKit.new { Config.default with batch_size := 1 }).capture "t" Event.default
        (SendOutcome.ok 200)).state.queue = [] := by
  have hA := (capture_threshold_send (PulseKit.new Config.default) "t" Event.default
    (SendOutcome.ok 200)).1 (by decide)
  have hB := (capture_threshold_send (PulseKit.new { Config.default with batch_size := 1 })
    "t" Event.default (SendOutcome.ok 200)).2 (by decide)
  exact ⟨by decide, hA.1, hA.2, by decide, hB.1, hB.2⟩

/-- C2: for every non-empty event list, `prepare_request` targets the
singular path with the single event object as body when exactly one event is
given, and the batch path with an events array in the same order when two or
more are given. -/
theorem prepare_request_shape (config : Config) (events : List Event)
    (h : events ≠ []) :
    (∀ e, events = [e] →
      prepare_request config events
        = (config.endpoint ++ "/api/v1/events", e.toJson)) ∧
    (2 ≤ events.length →
      prepare_request config events
        = (config.endpoint ++ "/api/v1/events/batch",
           Json.obj [("events", Json.arr (events.map Event.toJson))])) := by
  constructor
  · rintro e rfl
    simp [prepare_request]
  · intro h2
    have h1 : events.length ≠ 1 := by omega
    simp [prepare_request, h1]

/-- Witness for C2: one event targets the singular path, two events the
batch path, concretely. -/
theorem prepare_request_shape_witness :
    ([Event.default] : List Event) ≠ [] ∧
    prepare_request Config.default [Event.default]
      = (Config.default.endpoint ++ "/api/v1/events", Event.default.toJson) ∧
    ([Event.default, Event.default] : List Event) ≠ [] ∧
    2 ≤ ([Event.default, Event.default] : List Event).length ∧
    prepare_request Config.default [Event.default, Event.default]
      = (Config.default.endpoint ++ "/api/v1/events/batch",
         Json.obj [("events",
           Json.arr ([Event.default, Event.default].map Event.toJson))]) := by
  refine ⟨by simp, ?_, by simp, by decide, ?_⟩
  · exact (prepare_request_shape Config.default [Event.default] (by simp)).1
      Event.default rfl
  · exact (prepare_request_shape Config.default [Event.default, Event.default]
      (by simp)).2 (by decide)

/-- C3: enrichment overwrites the timestamp with the capture-time value
unconditionally, copies environment and release from the config only when
the event leaves them unset (caller values win), and defaults the level to
Info only when unset. -/
theorem enrich_spec (config : Config) (now : String) (e : Event) :
    (enrich config now e).timestamp = some now ∧
    (e.environment = none → (enrich config now e).environment = config.environment) ∧
    (∀ v, e.environment = some v → (enrich config now e).environment = some v) ∧
    (e.release = none → (enrich config now e).release = config.release) ∧
    (∀ v, e.release = some v → (enrich config now e).release = some v) ∧
    (e.level = none → (enrich config now e).level = some Level.info) ∧
    (∀ l, e.level = some l → (enrich config now e).level = some l) := by
  unfold enrich
  cases hl : e.level <;> cases hv : e.environment <;> cases hr : e.release <;>
    simp [hl, hv, hr, Option.or]

/-- Witness for C3: concrete enrichment of an all-unset event and of an
event with caller-set environment, release and level. -/
theorem enrich_spec_witness :
    (enrich Config.default "2024-01-01T00:00:00+00:00" Event.default).timestamp
        = some "2024-01-01T00:00:00+00:00" ∧
    Event.default.environment = none ∧
    (enrich Config.default "t" Event.default).environment
        = Config.default.environment ∧
    (enrich Config.default "t" Event.default).release = Config.default.release ∧
    (enrich Config.default "t" Event.default).level = some Level.info ∧
    ({ Event.default with
        environment := some "staging"
        release := some "1.2.3"
        level := some Level.warning } : Event).environment
        = some "staging" ∧
    (enrich Config.default "t"
        { Event.default with
          environment := some "staging"
          release := some "1.2.3"
          level := some Level.warning }).environment
        = some "staging" ∧
    (enrich Config.default "t"
        { Event.default with
          environment := some "staging"
          release := some "1.2.3"
          level := some Level.warning }).release
        = some "1.2.3" ∧
    (enrich Config.default "t"
        { Event.default with
          environment := some "staging"
          release := some "1.2.3"
          level := some Level.warning }).level
        = some Level.warning :=
  ⟨(enrich_spec Config.default "2024-01-01T00:00:00+00:00" Event.default).1,
   rfl,
   (enrich_spec Config.default "t" Event.default).2.1 rfl,
   (enrich_spec Config.default "t" Event.default).2.2.2.1 rfl,
   (enrich_spec Config.default "t" Event.default).2.2.2.2.2.1 rfl,
   rfl,
   (enrich_spec Config.default "t"
     { Event.default with
       environment := some "staging"
       release := some "1.2.3"
       level := some Level.warning }).2.2.1 "staging" rfl,
   (enrich_spec Config.default "t"
     { Event.default with
       environment := some "staging"
       release := some "1.2.3"
       level := some Level.warning }).2.2.2.2.1 "1.2.3" rfl,
   (enrich_spec Config.default "t"
     { Event.default with
       environment := some "staging"
       release := some "1.2.3"
       level := some Level.warning }).2.2.2.2.2.2
     Level.warning rfl⟩

/-- Capture hands the transport either nothing or exactly the full queue. -/
theorem capture_calls_nonempty_core (pk : PulseKit) (now : String) (e : Event)
    (o : SendOutcome) : ∀ c ∈ (pk.capture now e o).calls, c.events ≠ [] := by
  intro c hc
  by_cases hb : pk.config.batch_size ≤ pk.queue.length + 1
  · simp [PulseKit.capture, hb, send_events_sync] at hc
    simp [hc]
  · simp [PulseKit.capture, hb] at hc

/-- The async flush only sends a non-empty drained queue. -/
theorem flush_calls_nonempty_core (pk : PulseKit) (o : SendOutcome) :
    ∀ c ∈ (pk.flush o).calls, c.events ≠ [] := by
  intro c hc
  by_cases hq : pk.queue.isEmpty
  · simp [PulseKit.flush, hq] at hc
  · simp [PulseKit.flush, hq, send_events_async] at hc
    simp [hc, List.isEmpty_iff] at hq ⊢
    exact hq

/-- The blocking flush only sends a non-empty drained queue. -/
theorem flush_blocking_calls_nonempty_core (pk : PulseKit) (o : SendOutcome) :
    ∀ c ∈ (pk.flush_blocking o).calls, c.events ≠ [] := by
  intro c hc
  by_cases hq : pk.queue.isEmpty
  · simp [PulseKit.flush_blocking, hq] at hc
  · simp [PulseKit.flush_blocking, hq, send_events_sync] at hc
    simp [hc, List.isEmpty_iff] at hq ⊢
    exact hq

/-- C4: flushing an empty queue performs zero HTTP calls and leaves the
queue empty, and no public operation ever hands the transport an empty
event list. -/
theorem no_empty_send (pk : PulseKit) (now : String) (e : Event)
    (bt : List BacktraceFrame) (msg : String) (lvl : Level)
    (tags : Option (List (String × String)))
    (metadata : Option (List (String × Json))) (o : SendOutcome) :
    (pk.queue = [] →
      (pk.flush o).calls = [] ∧ (pk.flush o).state.queue = []) ∧
    (pk.queue = [] →
      (pk.flush_blocking o).calls = [] ∧ (pk.flush_blocking o).state.queue = []) ∧
    (∀ c ∈ (pk.capture now e o).calls, c.events ≠ []) ∧
    (∀ c ∈ (pk.capture_error now bt msg o).calls, c.events ≠ []) ∧
    (∀ c ∈ (pk.capture_error_with_options now bt msg tags metadata o).calls,
      c.events ≠ []) ∧
    (∀ c ∈ (pk.capture_message now msg lvl o).calls, c.events ≠ []) ∧
    (∀ c ∈ (pk.capture_message_with_options now msg lvl tags metadata o).calls,
      c.events ≠ []) ∧
    (∀ c ∈ (pk.flush o).calls, c.events ≠ []) ∧
    (∀ c ∈ (pk.flush_blocking o).calls, c.events ≠ []) ∧
    (∀ c ∈ (pk.teardown o).calls, c.events ≠ []) := by
  refine ⟨?_, ?_, ?_, ?_, ?_, ?_, ?_, ?_, ?_, ?_⟩
  · intro h
    simp [PulseKit.flush, h]
  · intro h
    simp [PulseKit.flush_blocking, h]
  · exact capture_calls_nonempty_core pk now e o
  · exact capture_calls_nonempty_core pk now _ o
  · exact capture_calls_nonempty_core pk now _ o
  · exact capture_calls_nonempty_core pk now _ o
  · exact capture_calls_nonempty_core pk now _ o
  · exact flush_calls_nonempty_core pk o
  · exact flush_blocking_calls_nonempty_core pk o
  · exact flush_blocking_calls_nonempty_core pk o

/-- Witness for C4: a fresh client has an empty queue; its flushes make no
call, and a threshold-triggered capture's one call carries a non-empty
batch. -/
theorem no_empty_send_witness :
    (PulseKit.new Config.default).queue = [] ∧
    ((PulseKit.new Config.default).flush (SendOutcome.ok 200)).calls = [] ∧
    ((PulseKit.new Config.default).flush (SendOutcome.ok 200)).state.queue = [] ∧
    ((PulseKit.new Config.default).flush_blocking (SendOutcome.ok 200)).calls = [] ∧
    ((PulseKit.new Config.default).flush_blocking (SendOutcome.ok 200)).state.queue = [] ∧
    (∀ c ∈ ((PulseKit.new { Config.default with batch_size := 1 }).capture "t"
        Event.default (SendOutcome.ok 200)).calls, c.events ≠ []) := by
  have h := no_empty_send (PulseKit.new Config.default) "t" Event.default []
    "m" Level.info none none (SendOutcome.ok 200)
  have h1 := no_empty_send (PulseKit.new { Config.default with batch_size := 1 })
    "t" Event.default [] "m" Level.info none none (SendOutcome.ok 200)
  exact ⟨rfl, (h.1 rfl).1, (h.1 rfl).2, (h.2.1 rfl).1, (h.2.1 rfl).2, h1.2.2.1⟩

/-- C5: the client state and the set of HTTP calls made are independent of
the network outcome: no error is surfaced, nothing is retried, and the
drained events are never re-queued, so a capture that sent (successfully or
not) and every flush leave the queue empty either way. -/
theorem fire_and_forget_at_most_once (pk : PulseKit) (now : String) (e : Event)
    (o1 o2 : SendOutcome) :
    (pk.capture now e o1).state = (pk.capture now e o2).state ∧
    (pk.capture now e o1).calls = (pk.capture now e o2).calls ∧
    (pk.flush o1).state = (pk.flush o2).state ∧
    (pk.flush o1).calls = (pk.flush o2).calls ∧
    (pk.flush_blocking o1).state = (pk.flush_blocking o2).state ∧
    (pk.flush_blocking o1).calls = (pk.flush_blocking o2).calls ∧
    (pk.flush o1).state.queue = [] ∧
    (pk.flush_blocking o1).state.queue = [] ∧
    ((pk.capture now e o1).calls.length = 1 →
      (pk.capture now e o1).state.queue = []) := by
  refine ⟨?_, ?_, ?_, ?_, ?_, ?_, ?_, ?_, ?_⟩
  · by_cases hb : pk.config.batch_size ≤ pk.queue.length + 1 <;>
      simp [PulseKit.capture, hb, send_events_sync]
  · by_cases hb : pk.config.batch_size ≤ pk.queue.length + 1 <;>
      simp [PulseKit.capture, hb, send_events_sync]
  · by_cases hq : pk.queue.isEmpty <;>
      simp [PulseKit.flush, hq, send_events_async]
  · by_cases hq : pk.queue.isEmpty <;>
      simp [PulseKit.flush, hq, send_events_async]
  · by_cases hq : pk.queue.isEmpty <;>
      simp [PulseKit.flush_blocking, hq, send_events_sync]
  · by_cases hq : pk.queue.isEmpty <;>
      simp [PulseKit.flush_blocking, hq, send_events_sync]
  · by_cases hq : pk.queue.isEmpty <;> simp [PulseKit.flush, hq]
  · by_cases hq : pk.queue.isEmpty <;> simp [PulseKit.flush_blocking, hq]
  · intro h
    by_cases hb : pk.config.batch_size ≤ pk.queue.length + 1
    · simp [PulseKit.capture, hb]
    · simp [PulseKit.capture, hb] at h

/-- Witness for C5: with batch_size 1 a capture sends exactly one call and
empties the queue, and a failed send leaves the same state as a successful
one. -/
theorem fire_and_forget_witness :
    ((PulseKit.new { Config.default with batch_size := 1 }).capture "t"
        Event.default (SendOutcome.ok 200)).calls.length = 1 ∧
    ((PulseKit.new { Config.default with batch_size := 1 }).capture "t"
        Event.default (SendOutcome.ok 200)).state.queue = [] ∧
    ((PulseKit.new { Config.default with batch_size := 1 }).capture "t"
        Event.default (SendOutcome.err "connection refused")).state
      = ((PulseKit.new { Config.default with batch_size := 1 }).capture "t"
          Event.default (SendOutcome.ok 200)).state :=
  ⟨by decide,
   (fire_and_forget_at_most_once (PulseKit.new { Config.default with batch_size := 1 })
     "t" Event.default (SendOutcome.ok 200) (SendOutcome.ok 200)).2.2.2.2.2.2.2.2
     (by decide),
   (fire_and_forget_at_most_once (PulseKit.new { Config.default with batch_size := 1 })
     "t" Event.default (SendOutcome.err "connection refused") (SendOutcome.ok 200)).1⟩

/-- C6: serialization omits every unset optional field entirely (the key is
absent, so in particular never null), no emitted field value is the JSON
null, and an event with only `event_type` set serializes to an object whose
only key is `type`. -/
theorem event_serialization_omits_unset (t : String) (e : Event) :
    Event.toJson { Event.default with event_type := t }
        = Json.obj [("type", Json.str t)] ∧
    (e.level = none → ∀ v, ("level", v) ∉ eventFields e) ∧
    (e.message = none → ∀ v, ("message", v) ∉ eventFields e) ∧
    (e.metadata = none → ∀ v, ("metadata", v) ∉ eventFields e) ∧
    (e.stacktrace = none → ∀ v, ("stacktrace", v) ∉ eventFields e) ∧
    (e.tags = none → ∀ v, ("tags", v) ∉ eventFields e) ∧
    (e.timestamp = none → ∀ v, ("timestamp", v) ∉ eventFields e) ∧
    (e.fingerprint = none → ∀ v, ("fingerprint", v) ∉ eventFields e) ∧
    (e.environment = none → ∀ v, ("environment", v) ∉ eventFields e) ∧
    (e.release = none → ∀ v, ("release", v) ∉ eventFields e) ∧
    (∀ p ∈ eventFields e, p.2 ≠ Json.null) := by
  refine ⟨rfl, ?_, ?_, ?_, ?_, ?_, ?_, ?_, ?_, ?_, ?_⟩
  · intro h v hv
    simp [eventFields, mem_optField_iff, h] at hv
  · intro h v hv
    simp [eventFields, mem_optField_iff, h] at hv
  · intro h v hv
    simp [eventFields, mem_optField_iff, h] at hv
  · intro h v hv
    simp [eventFields, mem_optField_iff, h] at hv
  · intro h v hv
    simp [eventFields, mem_optField_iff, h] at hv
  · intro h v hv
    simp [eventFields, mem_optField_iff, h] at hv
  · intro h v hv
    simp [eventFields, mem_optField_iff, h] at hv
  · intro h v hv
    simp [eventFields, mem_optField_iff, h] at hv
  · intro h v hv
    simp [eventFields, mem_optField_iff, h] at hv
  · intro p hp
    simp only [eventFields, List.mem_append, List.mem_cons, List.not_mem_nil,
      or_false, mem_optField_iff] at hp
    rcases hp with
      ((((((((rfl | ⟨j, hj, rfl⟩) | ⟨j, hj, rfl⟩) | ⟨j, hj, rfl⟩) | ⟨j, hj, rfl⟩) |
        ⟨j, hj, rfl⟩) | ⟨j, hj, rfl⟩) | ⟨j, hj, rfl⟩) | ⟨j, hj, rfl⟩) | ⟨j, hj, rfl⟩
    · simp
    · rcases Option.map_eq_some'.mp hj with ⟨a, ha, rfl⟩
      cases a <;> simp [Level.toJson]
    all_goals
      rcases Option.map_eq_some'.mp hj with ⟨a, ha, rfl⟩
      simp

/-- Witness for C6: the all-default event, which leaves every optional
field unset, serializes to an object with only the `type` key and no field
key appears for any unset field. -/
theorem event_serialization_omits_unset_witness :
    Event.toJson { Event.default with event_type := "payment.success" }
        = Json.obj [("type", Json.str "payment.success")] ∧
    Event.default.level = none ∧
    (∀ v, ("level", v) ∉ eventFields Event.default) ∧
    (∀ v, ("message", v) ∉ eventFields Event.default) ∧
    (∀ v, ("metadata", v) ∉ eventFields Event.default) ∧
    (∀ v, ("stacktrace", v) ∉ eventFields Event.default) ∧
    (∀ v, ("tags", v) ∉ eventFields Event.default) ∧
    (∀ v, ("timestamp", v) ∉ eventFields Event.default) ∧
    (∀ v, ("fingerprint", v) ∉ eventFields Event.default) ∧
    (∀ v, ("environment", v) ∉ eventFields Event.default) ∧
    (∀ v, ("release", v) ∉ eventFields Event.default) ∧
    (∀ p ∈ eventFields Event.default, p.2 ≠ Json.null) :=
  ⟨(event_serialization_omits_unset "payment.success" Event.default).1,
   rfl,
   (event_serialization_omits_unset "x" Event.default).2.1 rfl,
   (event_serialization_omits_unset "x" Event.default).2.2.1 rfl,
   (event_serialization_omits_unset "x" Event.default).2.2.2.1 rfl,
   (event_serialization_omits_unset "x" Event.default).2.2.2.2.1 rfl,
   (event_serialization_omits_unset "x" Event.default).2.2.2.2.2.1 rfl,
   (event_serialization_omits_unset "x" Event.default).2.2.2.2.2.2.1 rfl,
   (event_serialization_omits_unset "x" Event.default).2.2.2.2.2.2.2.1 rfl,
   (event_serialization_omits_unset "x" Event.default).2.2.2.2.2.2.2.2.1 rfl,
   (event_serialization_omits_unset "x" Event.default).2.2.2.2.2.2.2.2.2.1 rfl,
   (event_serialization_omits_unset "x" Event.default).2.2.2.2.2.2.2.2.2.2⟩

/-- C7: `capture_error` funnels into `capture` with an event whose type is
"error", whose level is Error, whose message is the given one and whose
stack trace is the captured backtrace with exactly the first 3 raw frames
skipped; enrichment preserves all of these on the captured event. -/
theorem capture_error_spec (pk : PulseKit) (now : String)
    (bt : List BacktraceFrame) (msg : String) (o : SendOutcome) :
    pk.capture_error now bt msg o
      = pk.capture now
          { Event.default with
              event_type := "error"
              level := some Level.error
              message := some msg
              stacktrace := some (capture_backtrace bt) } o ∧
    capture_backtrace bt
      = (bt.drop 3).flatMap (fun f => f.symbols.map (fun s =>
          { file := s.filename, line := s.lineno, function := s.name })) ∧
    (enrich pk.config now
        { Event.default with
            event_type := "error"
            level := some Level.error
            message := some msg
            stacktrace := some (capture_backtrace bt) }).event_type = "error" ∧
    (enrich pk.config now
        { Event.default with
            event_type := "error"
            level := some Level.error
            message := some msg
            stacktrace := some (capture_backtrace bt) }).level
        = some Level.error ∧
    (enrich pk.config now
        { Event.default with
            event_type := "error"
            level := some Level.error
            message := some msg
            stacktrace := some (capture_backtrace bt) }).message = some msg ∧
    (enrich pk.config now
        { Event.default with
            event_type := "error"
            level := some Level.error
            message := some msg
            stacktrace := some (capture_backtrace bt) }).stacktrace
        = some (capture_backtrace bt) :=
  ⟨rfl, capture_backtrace_eq bt, by simp [enrich], by simp [enrich],
   by simp [enrich], by simp [enrich]⟩

/-- C8: teardown is exactly `flush_blocking`: it leaves the queue empty,
and when events were still queued it sends them all as one batch. -/
theorem teardown_is_flush_blocking (pk : PulseKit) (o : SendOutcome) :
    pk.teardown o = pk.flush_blocking o ∧
    (pk.teardown o).state.queue = [] ∧
    (pk.queue ≠ [] →
      (pk.teardown o).calls.map HttpCall.events = [pk.queue]) := by
  refine ⟨rfl, ?_, ?_⟩
  · by_cases hq : pk.queue.isEmpty <;>
      simp [PulseKit.teardown, PulseKit.flush_blocking, hq]
  · intro h
    have hq : ¬ pk.queue.isEmpty = true := by
      simp [List.isEmpty_iff, h]
    simp [PulseKit.teardown, PulseKit.flush_blocking, hq, send_events_sync]

/-- Witness for C8: a client holding one queued event, torn down after a
failed send, still drains: one call carrying that event, queue empty. -/
theorem teardown_is_flush_blocking_witness :
    ({ config := Config.default, queue := [Event.default] } : PulseKit).queue ≠ [] ∧
    (({ config := Config.default, queue := [Event.default] } : PulseKit).teardown
        (SendOutcome.err "timeout")).calls.map HttpCall.events
      = [({ config := Config.default, queue := [Event.default] } : PulseKit).queue] ∧
    (({ config := Config.default, queue := [Event.default] } : PulseKit).teardown
        (SendOutcome.err "timeout")).state.queue = [] :=
  ⟨by simp,
   (teardown_is_flush_blocking
     { config := Config.default, queue := [Event.default] }
     (SendOutcome.err "timeout")).2.2 (by simp),
   (teardown_is_flush_blocking
     { config := Config.default, queue := [Event.default] }
     (SendOutcome.err "timeout")).2.1⟩

/-- C9 counterexample: `PulseKit::new` performs no validation, so passing a
config with batch_size 0 constructs a client whose batch_size is 0,
refuting that a client with batch_size 0 is never constructed. -/
theorem batch_size_zero_client_constructed :
    (PulseKit.new { Config.default with batch_size := 0 }).config.batch_size
      = 0 := rfl

/-- C9 amended: batch_size defaults to 10 when unspecified, and the
constructor stores the caller's batch_size unchanged without validating it,
so a client built from the default config has batch_size 10 (hence at least
1), while an explicitly supplied 0 is accepted as-is. -/
theorem batch_size_default_ten_unvalidated (config : Config) :
    Config.default.batch_size = 10 ∧
    (PulseKit.new config).config.batch_size = config.batch_size ∧
    1 ≤ (PulseKit.new Config.default).config.batch_size :=
  ⟨rfl, rfl, by decide⟩

/-- An event carrying the enrichment guarantees relative to a config. -/
def eventEnriched (config : Config) (e : Event) : Prop :=
  e.timestamp.isSome ∧ e.level.isSome ∧
  (config.environment.isSome → e.environment.isSome)

/-- Queue invariant: every queued event is enriched. -/
def QueueInv (pk : PulseKit) : Prop :=
  ∀ e ∈ pk.queue, eventEnriched pk.config e

/-- An operation result respecting the invariant: config untouched, new
queue invariant, every event handed to the transport enriched. -/
def ResultInv (config : Config) (r : OpResult) : Prop :=
  r.state.config = config ∧ QueueInv r.state ∧
  ∀ c ∈ r.calls, ∀ ev ∈ c.events, eventEnriched config ev

theorem enrich_eventEnriched (config : Config) (now : String) (e : Event) :
    eventEnriched config (enrich config now e) := by
  unfold eventEnriched enrich
  cases hl : e.level <;> cases hv : e.environment <;> simp [hl, hv, Option.or]

theorem capture_resultInv (pk : PulseKit) (now : String) (e : Event)
    (o : SendOutcome) (h : QueueInv pk) :
    ResultInv pk.config (pk.capture now e o) := by
  unfold ResultInv QueueInv at *
  by_cases hb : pk.config.batch_size ≤ pk.queue.length + 1
  · refine ⟨?_, ?_, ?_⟩
    · simp [PulseKit.capture, hb]
    · intro ev hev
      simp [PulseKit.capture, hb] at hev
    · intro c hc ev hev
      simp [PulseKit.capture, hb, send_events_sync] at hc
      rw [hc] at hev
      simp at hev
      rcases hev with hev | hev
      · exact h ev hev
      · rw [hev]
        exact enrich_eventEnriched pk.config now e
  · refine ⟨?_, ?_, ?_⟩
    · simp [PulseKit.capture, hb]
    · intro ev hev
      simp [PulseKit.capture, hb] at hev ⊢
      rcases hev with hev | hev
      · exact h ev hev
      · rw [hev]
        exact enrich_eventEnriched pk.config now e
    · intro c hc
      simp [PulseKit.capture, hb] at hc

theorem flush_resultInv (pk : PulseKit) (o : SendOutcome) (h : QueueInv pk) :
    ResultInv pk.config (pk.flush o) := by
  unfold ResultInv QueueInv at *
  by_cases hq : pk.queue.isEmpty
  · refine ⟨?_, ?_, ?_⟩
    · simp [PulseKit.flush, hq]
    · intro ev hev
      simp [PulseKit.flush, hq] at hev
    · intro c hc
      simp [PulseKit.flush, hq] at hc
  · refine ⟨?_, ?_, ?_⟩
    · simp [PulseKit.flush, hq]
    · intro ev hev
      simp [PulseKit.flush, hq] at hev
    · intro c hc ev hev
      simp [PulseKit.flush, hq, send_events_async] at hc
      rw [hc] at hev
      exact h ev hev

theorem flush_blocking_resultInv (pk : PulseKit) (o : SendOutcome)
    (h : QueueInv pk) : ResultInv pk.config (pk.flush_blocking o) := by
  unfold ResultInv QueueInv at *
  by_cases hq : pk.queue.isEmpty
  · refine ⟨?_, ?_, ?_⟩
    · simp [PulseKit.flush_blocking, hq]
    · intro ev hev
      simp [PulseKit.flush_blocking, hq] at hev
    · intro c hc
      simp [PulseKit.flush_blocking, hq] at hc
  · refine ⟨?_, ?_, ?_⟩
    · simp [PulseKit.flush_blocking, hq]
    · intro ev hev
      simp [PulseKit.flush_blocking, hq] at hev
    · intro c hc ev hev
      simp [PulseKit.flush_blocking, hq, send_events_sync] at hc
      rw [hc] at hev
      exact h ev hev

/-- C10: starting from any state whose queued events are all enriched
(set timestamp, set level, environment set whenever the config's is),
every public operation preserves that invariant on the queue and hands the
transport only enriched events. -/
theorem enrichment_invariant (pk : PulseKit) (now : String) (e : Event)
    (bt : List BacktraceFrame) (msg : String) (lvl : Level)
    (tags : Option (List (String × String)))
    (metadata : Option (List (String × Json))) (o : SendOutcome)
    (h : QueueInv pk) :
    ResultInv pk.config (pk.capture now e o) ∧
    ResultInv pk.config (pk.capture_error now bt msg o) ∧
    ResultInv pk.config (pk.capture_error_with_options now bt msg tags metadata o) ∧
    ResultInv pk.config (pk.capture_message now msg lvl o) ∧
    ResultInv pk.config (pk.capture_message_with_options now msg lvl tags metadata o) ∧
    ResultInv pk.config (pk.flush o) ∧
    ResultInv pk.config (pk.flush_blocking o) ∧
    ResultInv pk.config (pk.teardown o) :=
  ⟨capture_resultInv pk now e o h,
   capture_resultInv pk now _ o h,
   capture_resultInv pk now _ o h,
   capture_resultInv pk now _ o h,
   capture_resultInv pk now _ o h,
   flush_resultInv pk o h,
   flush_blocking_resultInv pk o h,
   flush_blocking_resultInv pk o h⟩

/-- Witness for C10: a fresh default client trivially satisfies the queue
invariant, and every public operation run on it preserves it. -/
theorem enrichment_invariant_witness :
    QueueInv (PulseKit.new Config.default) ∧
    (ResultInv (PulseKit.new Config.default).config
        ((PulseKit.new Config.default).capture "t" Event.default
          (SendOutcome.ok 200)) ∧
      ResultInv (PulseKit.new Config.default).config
        ((PulseKit.new Config.default).capture_error "t" [] "m"
          (SendOutcome.ok 200)) ∧
      ResultInv (PulseKit.new Config.default).config
        ((PulseKit.new Config.default).capture_error_with_options "t" [] "m"
          none none (SendOutcome.ok 200)) ∧
      ResultInv (PulseKit.new Config.default).config
        ((PulseKit.new Config.default).capture_message "t" "m" Level.info
          (SendOutcome.ok 200)) ∧
      ResultInv (PulseKit.new Config.default).config
        ((PulseKit.new Config.default).capture_message_with_options "t" "m"
          Level.info none none (SendOutcome.ok 200)) ∧
      ResultInv (PulseKit.new Config.default).config
        ((PulseKit.new Config.default).flush (SendOutcome.ok 200)) ∧
      ResultInv (PulseKit.new Config.default).config
        ((PulseKit.new Config.default).flush_blocking (SendOutcome.ok 200)) ∧
      ResultInv (PulseKit.new Config.default).config
        ((PulseKit.new Config.default).teardown (SendOutcome.ok 200))) :=
  ⟨by simp [QueueInv, PulseKit.new],
   enrichment_invariant (PulseKit.new Config.default) "t" Event.default []
     "m" Level.info none none (SendOutcome.ok 200)
     (by simp [QueueInv, PulseKit.new])⟩
